import Mathlib

/-!
Shallow embedding of the `query` package of Final-Year-Project-G22/backend:
a configuration-driven translator from HTTP-style query options into
GORM clause-builder calls (pagination, sorting, filtering, ILIKE search,
preloading, soft-delete partitioning), plus the HTTP middleware helpers.

The external GORM `*gorm.DB` value is modelled as the symbolic state `DB`
accumulating the clause-builder calls the package issues: each `Order` call
is recorded as its list of (column, direction) pairs (the source renders
the pair as the string "col dir" and joins with ", "; the pair carries the
same information), each `Where` call as a structured condition, and
`Offset` / `Limit` as the last value set.  Go `int` / `int64` are modelled
as `Int` (the platform is 64-bit, so the `int(total)` cast is the
identity); Go map values of type `interface{}` produced by the request
parser are always strings, so filters are string pairs.
-/

/-- EntityConfig from query_config.go: per-entity whitelists and defaults. -/
structure EntityConfig where
  searchableColumns : List String
  sortableColumns : List String
  defaultSort : List String
  defaultIncludes : List String
deriving DecidableEq

/-- The process-wide `configRegistry` map, modelled as an association list
with unique keys (first match wins; `RegisterConfig` prepends, so the last
registration for a key is found first, matching map overwrite). -/
def Registry : Type := List (String × EntityConfig)

/-- RegisterConfig: stores/overwrites the configuration for a key. -/
def RegisterConfig (reg : Registry) (entityType : String) (config : EntityConfig) : Registry :=
  (entityType, config) :: reg

/-- GetConfig: map lookup, none when the entity type is unregistered. -/
def GetConfig (reg : Registry) (entityType : String) : Option EntityConfig :=
  match reg with
  | [] => none
  | (k, cfg) :: rest => if k = entityType then some cfg else GetConfig rest entityType

/-- IsValidSortColumn from query_config.go. -/
def IsValidSortColumn (reg : Registry) (entityType column : String) : Bool :=
  match GetConfig reg entityType with
  | none => false
  | some config => config.sortableColumns.contains column

/-- IsValidSearchColumn from query_config.go. -/
def IsValidSearchColumn (reg : Registry) (entityType column : String) : Bool :=
  match GetConfig reg entityType with
  | none => false
  | some config => config.searchableColumns.contains column

/-- One "col dir" element of an ORDER BY clause string. -/
structure OrderClause where
  col : String
  ord : String
deriving DecidableEq

/-- A condition passed to a `Where` call: an exact-match filter map, the
OR-joined group of "col ILIKE ?" conditions (each one applied to the same
wildcard-wrapped term), or a raw SQL fragment (the soft-delete guards). -/
inductive WhereCond where
  | filters (fs : List (String × String)) : WhereCond
  | orILike (cols : List String) (term : String) : WhereCond
  | raw (sql : String) : WhereCond
deriving DecidableEq

/-- Symbolic state of the external GORM query under construction. -/
structure DB where
  offset : Option Int
  limit : Option Int
  orders : List (List OrderClause)
  wheres : List WhereCond
  preloads : List String
  unscoped : Bool
deriving DecidableEq

/-- A fresh query with no clauses, as handed to Build by a caller. -/
def DB.empty : DB :=
  { offset := none, limit := none, orders := [], wheres := [], preloads := [],
    unscoped := false }

def DB.Offset (db : DB) (n : Int) : DB := { db with offset := some n }

def DB.Limit (db : DB) (n : Int) : DB := { db with limit := some n }

def DB.Order (db : DB) (oc : List OrderClause) : DB := { db with orders := db.orders ++ [oc] }

def DB.Where (db : DB) (c : WhereCond) : DB := { db with wheres := db.wheres ++ [c] }

def DB.Preload (db : DB) (p : String) : DB := { db with preloads := db.preloads ++ [p] }

def DB.Unscoped (db : DB) : DB := { db with unscoped := true }

/-- gorm `db.Session(&gorm.Session{})`: a new session carrying the same
accumulated statement; on the symbolic state it is the identity. -/
def DB.Session (db : DB) : DB := db

/-- DefaultPage constant from the builder file. -/
def DefaultPage : Int := 1

/-- DefaultPageSize constant from the builder file. -/
def DefaultPageSize : Int := 20

/-- MaxPageSize constant from the builder file. -/
def MaxPageSize : Int := 100

/-- QueryOptions record from the builder file. -/
structure QueryOptions where
  page : Int
  pageSize : Int
  sortBy : List String
  sortOrder : List String
  search : String
  searchColumns : List String
  filters : List (String × String)
  preload : List String
  includeArchived : Bool
deriving DecidableEq

/-- DefaultQueryOptions from the builder file. -/
def DefaultQueryOptions : QueryOptions :=
  { page := DefaultPage, pageSize := DefaultPageSize,
    sortBy := ["created_at"], sortOrder := ["desc"],
    search := "", searchColumns := [], filters := [], preload := [],
    includeArchived := false }

/-- QueryBuilder: entity type plus the configuration captured at
construction time. -/
structure QueryBuilder where
  entityType : String
  config : Option EntityConfig

/-- NewQueryBuilder from the builder file. -/
def NewQueryBuilder (reg : Registry) (entityType : String) : QueryBuilder :=
  { entityType := entityType, config := GetConfig reg entityType }

/-- Splitting a character list at every occurrence of the separator,
keeping empty pieces, as Go strings.Split does for a one-character
separator. -/
def splitChar (sep : Char) (l : List Char) : List (List Char) :=
  match l with
  | [] => [[]]
  | c :: rest =>
    let r := splitChar sep rest
    if c = sep then [] :: r
    else
      match r with
      | h :: t => (c :: h) :: t
      | [] => [[c]]

/-- Go strings.Split with a one-character separator (the source only ever
splits on "," and "."). -/
def splitOnChar (sep : Char) (s : String) : List String :=
  (splitChar sep s.data).map fun l => String.mk l

/-- Go strings.ToLower for ASCII data, character by character. -/
def lowerString (s : String) : String := String.mk (s.data.map Char.toLower)

/-- The direction paired with sort column index i in applySorting:
"desc" exactly when `i < len(SortOrder)` and the entry lowercases to
"desc", otherwise "asc". -/
def orderFor (sortOrder : List String) (i : Nat) : String :=
  match sortOrder[i]? with
  | some s => if lowerString s = "desc" then "desc" else "asc"
  | none => "asc"

/-- The orderClauses loop of applySorting: walk SortBy with its index,
skipping a column when the entity type is non-empty and the column fails
IsValidSortColumn, and pairing each kept column with its direction. -/
def mkOrderClauses (reg : Registry) (entityType : String) (sortBy sortOrder : List String) :
    List OrderClause :=
  sortBy.enum.filterMap fun p =>
    if (entityType != "") && !(IsValidSortColumn reg entityType p.2) then none
    else some { col := p.2, ord := orderFor sortOrder p.1 }

/-- applyPagination from the builder file. -/
def QueryBuilder.applyPagination (_q : QueryBuilder) (db : DB) (opts : QueryOptions) : DB :=
  let page := if opts.page < 1 then DefaultPage else opts.page
  let pageSize := if opts.pageSize < 1 then DefaultPageSize else opts.pageSize
  let pageSize := if pageSize > MaxPageSize then MaxPageSize else pageSize
  let offset := (page - 1) * pageSize
  (db.Offset offset).Limit pageSize

/-- applySorting from the builder file.  When SortBy is empty the code
substitutes the configured DefaultSort with an all-"asc" SortOrder and
falls through to the common loop, or orders by the raw string
"created_at desc" when there is no configuration or its DefaultSort is
empty. -/
def QueryBuilder.applySorting (reg : Registry) (q : QueryBuilder) (db : DB)
    (opts : QueryOptions) : DB :=
  if opts.sortBy.isEmpty then
    match q.config with
    | some cfg =>
      if cfg.defaultSort.length > 0 then
        let orderClauses := mkOrderClauses reg q.entityType cfg.defaultSort
          (List.replicate cfg.defaultSort.length "asc")
        if orderClauses.length > 0 then db.Order orderClauses else db
      else db.Order [{ col := "created_at", ord := "desc" }]
    | none => db.Order [{ col := "created_at", ord := "desc" }]
  else
    let orderClauses := mkOrderClauses reg q.entityType opts.sortBy opts.sortOrder
    if orderClauses.length > 0 then db.Order orderClauses else db

/-- applyFilters from the builder file. -/
def QueryBuilder.applyFilters (_q : QueryBuilder) (db : DB) (opts : QueryOptions) : DB :=
  if opts.filters.length > 0 then db.Where (WhereCond.filters opts.filters) else db

/-- applySearch from the builder file. -/
def QueryBuilder.applySearch (reg : Registry) (q : QueryBuilder) (db : DB)
    (opts : QueryOptions) : DB :=
  if opts.search = "" then db
  else
    let searchColumns := opts.searchColumns
    let searchColumns :=
      if searchColumns.isEmpty then
        match q.config with
        | some cfg => cfg.searchableColumns
        | none => searchColumns
      else searchColumns
    if searchColumns.isEmpty then db
    else
      let searchTerm := "%" ++ opts.search ++ "%"
      let conditions := searchColumns.filter fun col =>
        !((q.entityType != "") && !(IsValidSearchColumn reg q.entityType col))
      if conditions.length > 0 then db.Where (WhereCond.orILike conditions searchTerm)
      else db

/-- applyPreload from the builder file. -/
def QueryBuilder.applyPreload (_q : QueryBuilder) (db : DB) (opts : QueryOptions) : DB :=
  opts.preload.foldl DB.Preload db

/-- applyQuery from the builder file: the five steps then the archive
partition. -/
def QueryBuilder.applyQuery (reg : Registry) (q : QueryBuilder) (db : DB)
    (opts : QueryOptions) (archived : Bool) : DB :=
  let db := q.applyPagination db opts
  let db := QueryBuilder.applySorting reg q db opts
  let db := q.applyFilters db opts
  let db := QueryBuilder.applySearch reg q db opts
  let db := q.applyPreload db opts
  if archived then (db.Unscoped).Where (WhereCond.raw "deleted_at IS NOT NULL")
  else db.Where (WhereCond.raw "deleted_at IS NULL")

/-- Build from the builder file. -/
def QueryBuilder.Build (reg : Registry) (q : QueryBuilder) (db : DB)
    (opts : QueryOptions) : DB :=
  QueryBuilder.applyQuery reg q db opts false

/-- BuildArchived from the builder file. -/
def QueryBuilder.BuildArchived (reg : Registry) (q : QueryBuilder) (db : DB)
    (opts : QueryOptions) : DB :=
  QueryBuilder.applyQuery reg q db opts true

/-- The query that `Count` constructs: `Count` opens a fresh session on
the given db, applies applyQuery to it and hands the result to the
external ORM's row counter.  The counting itself happens outside this
module, so we embed the query `Count` builds and passes on. -/
def QueryBuilder.CountQuery (reg : Registry) (q : QueryBuilder) (db : DB)
    (opts : QueryOptions) (archived : Bool) : DB :=
  QueryBuilder.applyQuery reg q (DB.Session db) opts archived

/-- Decimal digit test used by the Atoi model. -/
def isDigitChar (c : Char) : Bool := '0' ≤ c && c ≤ '9'

/-- Value of a digit string. -/
def digitsVal (l : List Char) : Nat :=
  l.foldl (fun acc c => acc * 10 + (c.toNat - '0'.toNat)) 0

/-- Models Go strconv.Atoi on a 64-bit platform: an optional sign followed
by at least one decimal digit parses to its value when it fits in int64;
anything else (empty, stray characters, out of range) is an error,
modelled as none. -/
def atoi (s : String) : Option Int :=
  match s.data with
  | '+' :: rest =>
    if rest.isEmpty then none
    else if rest.all isDigitChar then
      if (digitsVal rest : Int) < 2 ^ 63 then some (digitsVal rest : Int) else none
    else none
  | '-' :: rest =>
    if rest.isEmpty then none
    else if rest.all isDigitChar then
      if (digitsVal rest : Int) ≤ 2 ^ 63 then some (-(digitsVal rest : Int)) else none
    else none
  | rest =>
    if rest.isEmpty then none
    else if rest.all isDigitChar then
      if (digitsVal rest : Int) < 2 ^ 63 then some (digitsVal rest : Int) else none
    else none

/-- The inbound URL query (Go url.Values): each parameter name maps to its
list of values.  Keys are unique, as in the Go map. -/
def QueryValues : Type := List (String × List String)

def lookupValues (c : QueryValues) (key : String) : Option (List String) :=
  match c with
  | [] => none
  | (k, vs) :: rest => if k = key then some vs else lookupValues rest key

/-- gin Context.Query: the first value for the key, or "" when the key is
absent or has no values. -/
def ctxQuery (c : QueryValues) (key : String) : String :=
  match lookupValues c key with
  | some (v :: _) => v
  | _ => ""

/-- The page block of ParseFromRequest. -/
def applyPageParam (c : QueryValues) (opts : QueryOptions) : QueryOptions :=
  let s := ctxQuery c "page"
  if s ≠ "" then
    match atoi s with
    | some page => if page > 0 then { opts with page := page } else opts
    | none => opts
  else opts

/-- The pageSize block of ParseFromRequest. -/
def applyPageSizeParam (c : QueryValues) (opts : QueryOptions) : QueryOptions :=
  let s := ctxQuery c "pageSize"
  if s ≠ "" then
    match atoi s with
    | some pageSize => if pageSize > 0 then { opts with pageSize := pageSize } else opts
    | none => opts
  else opts

/-- The sortBy block of ParseFromRequest. -/
def applySortByParam (c : QueryValues) (opts : QueryOptions) : QueryOptions :=
  let s := ctxQuery c "sortBy"
  if s ≠ "" then { opts with sortBy := splitOnChar ',' s } else opts

/-- The sortOrder block of ParseFromRequest. -/
def applySortOrderParam (c : QueryValues) (opts : QueryOptions) : QueryOptions :=
  let s := ctxQuery c "sortOrder"
  if s ≠ "" then { opts with sortOrder := splitOnChar ',' s } else opts

/-- The search block of ParseFromRequest. -/
def applySearchParam (c : QueryValues) (opts : QueryOptions) : QueryOptions :=
  let s := ctxQuery c "search"
  if s ≠ "" then { opts with search := s } else opts

/-- The searchColumns block of ParseFromRequest. -/
def applySearchColumnsParam (c : QueryValues) (opts : QueryOptions) : QueryOptions :=
  let s := ctxQuery c "searchColumns"
  if s ≠ "" then { opts with searchColumns := splitOnChar ',' s } else opts

/-- The preload block of ParseFromRequest. -/
def applyPreloadParam (c : QueryValues) (opts : QueryOptions) : QueryOptions :=
  let s := ctxQuery c "preload"
  if s ≠ "" then { opts with preload := splitOnChar ',' s } else opts

/-- The includeArchived block of ParseFromRequest. -/
def applyIncludeArchivedParam (c : QueryValues) (opts : QueryOptions) : QueryOptions :=
  let s := ctxQuery c "includeArchived"
  if s ≠ "" then { opts with includeArchived := s = "true" || s = "1" } else opts

/-- The reserved parameter names that parseFilters skips. -/
def reservedKeys : List String :=
  ["page", "pageSize", "sortBy", "sortOrder", "search", "searchColumns",
   "preload", "includeArchived"]

/-- parseFilters from query_middleware.go: every non-reserved parameter
with at least one value becomes an exact-match filter (first value wins);
the filter map is only installed when non-empty. -/
def parseFilters (c : QueryValues) (opts : QueryOptions) : QueryOptions :=
  let filters := c.filterMap fun kv =>
    if reservedKeys.contains kv.1 then none
    else
      match kv.2 with
      | v :: _ => some (kv.1, v)
      | [] => none
  if filters.length > 0 then { opts with filters := filters } else opts

/-- ParseFromRequest from query_middleware.go: start from
DefaultQueryOptions and apply each parameter block in source order. -/
def ParseFromRequest (c : QueryValues) : QueryOptions :=
  parseFilters c
    (applyIncludeArchivedParam c
      (applyPreloadParam c
        (applySearchColumnsParam c
          (applySearchParam c
            (applySortOrderParam c
              (applySortByParam c
                (applyPageSizeParam c
                  (applyPageParam c DefaultQueryOptions))))))))

/-- Go integer division: truncation toward zero, runtime panic on zero
divisor (modelled as none). -/
def goDiv (a b : Int) : Option Int := if b = 0 then none else some (Int.tdiv a b)

/-- Go integer remainder: sign of the dividend, runtime panic on zero
divisor (modelled as none). -/
def goMod (a b : Int) : Option Int := if b = 0 then none else some (Int.tmod a b)

/-- The gin.H value produced by PaginatedResponse. -/
structure PagResponse (α : Type u) where
  data : List α
  total : Int
  page : Int
  pageSize : Int
  totalPages : Int

/-- PaginatedResponse from query_middleware.go: totalPages is
int(total)/pageSize plus one when the remainder is positive; the division
panics when pageSize is zero, modelled as none. -/
def PaginatedResponse (data : List α) (total : Int) (page pageSize : Int) :
    Option (PagResponse α) :=
  match goDiv total pageSize, goMod total pageSize with
  | some q, some m =>
    let totalPages := if m > 0 then q + 1 else q
    some { data := data, total := total, page := page, pageSize := pageSize,
           totalPages := totalPages }
  | _, _ => none

/-- The gin.H value produced by RespondWithPagination. -/
structure PagMeta where
  total : Int
  page : Int
  pageSize : Int
  totalPages : Int
deriving DecidableEq

/-- RespondWithPagination from query_middleware.go: same totalPages
computation as PaginatedResponse, without a data payload; the status
argument is accepted but unused by the source body, and the gin context
it receives is external.  Division panics when pageSize is zero. -/
def RespondWithPagination (_status : Int) (total : Int) (page pageSize : Int) :
    Option PagMeta :=
  match goDiv total pageSize, goMod total pageSize with
  | some q, some m =>
    let totalPages := if m > 0 then q + 1 else q
    some { total := total, page := page, pageSize := pageSize, totalPages := totalPages }
  | _, _ => none

/-- ParseEntityType from query_middleware.go: splits the constant string
built from the rune literal on "." and lowercases the last piece, never
consulting its argument. -/
def ParseEntityType {α : Type u} (_entity : α) : String :=
  let parts := splitOnChar '.' (String.singleton 't')
  if parts.length > 0 then
    match parts.getLast? with
    | some s => lowerString s
    | none => ""
  else ""

/-- Paginate from query_middleware.go. -/
def Paginate (page pageSize : Int) : Int × Int :=
  let page := if page < 1 then 1 else page
  let pageSize := if pageSize < 1 then DefaultPageSize else pageSize
  let pageSize := if pageSize > MaxPageSize then MaxPageSize else pageSize
  (page, pageSize)

/-- A QueryOptions value with every field zero or empty, the base for the
concrete inputs below. -/
def optsBlank : QueryOptions :=
  { page := 0, pageSize := 0, sortBy := [], sortOrder := [], search := "",
    searchColumns := [], filters := [], preload := [], includeArchived := false }

/-- A configuration whose DefaultSort column is not in its own sortable
whitelist. -/
def cfgNameDefault : EntityConfig :=
  { searchableColumns := [], sortableColumns := [], defaultSort := ["name"],
    defaultIncludes := [] }

/-- Registry holding only cfgNameDefault under the key "e". -/
def regNameDefault : Registry := [("e", cfgNameDefault)]

/-- The running example configuration: searchable on email only, sortable
on name and created_at, default sort created_at. -/
def cfgUser : EntityConfig :=
  { searchableColumns := ["email"], sortableColumns := ["name", "created_at"],
    defaultSort := ["created_at"], defaultIncludes := [] }

/-- Registry holding only cfgUser under the key "user". -/
def regUser : Registry := [("user", cfgUser)]

/-- A request mixing whitelisted and non-whitelisted sort and search
columns against the "user" configuration. -/
def optsMixed : QueryOptions :=
  { optsBlank with
    sortBy := ["name", "hacked"], search := "john", searchColumns := ["email", "phone"] }

/-- A request for the second page of twenty records. -/
def optsPage2 : QueryOptions := { optsBlank with page := 2, pageSize := 20 }

/-- A request sorting by one unknown column against an empty registry. -/
def optsSortX : QueryOptions := { optsBlank with sortBy := ["x"] }

/-- The specification worked example: sortBy name,unknownCol with
sortOrder desc. -/
def optsSortNameUnknown : QueryOptions :=
  { optsBlank with sortBy := ["name", "unknownCol"], sortOrder := ["desc"] }

/-- A search for john over one unknown column. -/
def optsSearchX : QueryOptions := { optsBlank with search := "john", searchColumns := ["x"] }

/-- The specification worked example: search john over email,phone. -/
def optsSearchJohn : QueryOptions :=
  { optsBlank with search := "john", searchColumns := ["email", "phone"] }

/-- Specification-side description of the sort clause built from a
non-empty SortBy: keep exactly the whitelisted columns, pair each kept
column with the SortOrder entry at its original position, where a
case-insensitively lowercased "desc" gives descending and any other or
missing entry gives ascending. -/
def sortSpecRequested (reg : Registry) (et : String) (sortBy sortOrder : List String) :
    List OrderClause :=
  (sortBy.enum.filter fun p => IsValidSortColumn reg et p.2).map
    fun p => OrderClause.mk p.2
      (if lowerString ((sortOrder[p.1]?).getD "") = "desc" then "desc" else "asc")

/-- Specification-side description of the order clauses applied when
SortBy is empty: a configured non-empty DefaultSort yields an ascending
order on its whitelisted columns (none at all if none survive); no
configuration, or an empty DefaultSort, yields the created_at desc
fallback. -/
def sortSpecDefault (reg : Registry) (et : String) : List (List OrderClause) :=
  match GetConfig reg et with
  | some cfg =>
    if cfg.defaultSort = [] then [[OrderClause.mk "created_at" "desc"]]
    else
      if (cfg.defaultSort.filter fun c => IsValidSortColumn reg et c) = [] then []
      else [(cfg.defaultSort.filter fun c => IsValidSortColumn reg et c).map
              fun c => OrderClause.mk c "asc"]
  | none => [[OrderClause.mk "created_at" "desc"]]

/-- The search step as the specification words it: the candidate set is
SearchColumns when provided, else the entity's SearchableColumns; columns
failing IsValidSearchColumn are dropped; the survivors form one OR-group
of case-insensitive wildcard-wrapped contains conditions conjoined to the
query; with no survivors the query is unchanged. -/
def searchSpec (reg : Registry) (et : String) (db : DB) (opts : QueryOptions) : DB :=
  if opts.search = "" then db
  else
    let cand :=
      if opts.searchColumns = [] then
        match GetConfig reg et with
        | some cfg => cfg.searchableColumns
        | none => []
      else opts.searchColumns
    let kept := cand.filter fun c => IsValidSearchColumn reg et c
    if kept = [] then db
    else db.Where (WhereCond.orILike kept ("%" ++ opts.search ++ "%"))

/-! Helper lemmas about the builder steps. -/

theorem filterMap_flagged (p : α → Bool) (f : α → β) (l : List α) :
    (l.filterMap fun x => if p x = false then none else some (f x)) = (l.filter p).map f := by
  induction l with
  | nil => rfl
  | cons a t ih =>
    cases h : p a <;>
      simp [List.filterMap_cons, List.filter_cons, h, ih]

theorem mkOrderClauses_eq (reg : Registry) (et : String) (sb so : List String)
    (h : et ≠ "") :
    mkOrderClauses reg et sb so =
      ((sb.enum.filter fun p => IsValidSortColumn reg et p.2).map
        fun p => OrderClause.mk p.2 (orderFor so p.1)) := by
  have hb : (et != "") = true := by simpa using h
  unfold mkOrderClauses
  simp only [hb, Bool.true_and, Bool.not_eq_true']
  exact filterMap_flagged (fun p => IsValidSortColumn reg et p.2)
    (fun p => OrderClause.mk p.2 (orderFor so p.1)) sb.enum

theorem orderFor_replicate_asc (n i : Nat) :
    orderFor (List.replicate n "asc") i = "asc" := by
  unfold orderFor
  rcases h : (List.replicate n "asc")[i]? with _ | s
  · rfl
  · have hs : s = "asc" := by
      have := List.getElem?_mem h
      simpa using List.eq_of_mem_replicate this
    subst hs
    decide

theorem orderFor_eq_getD (so : List String) (i : Nat) :
    orderFor so i =
      if lowerString ((so[i]?).getD "") = "desc" then "desc" else "asc" := by
  unfold orderFor
  rcases h : so[i]? with _ | s
  · simp only [Option.getD_none]
    decide
  · simp only [Option.getD_some]

theorem enumFrom_filter_map_snd (q : α → Bool) (f : α → β) :
    ∀ (k : Nat) (l : List α),
      (((List.enumFrom k l).filter fun p => q p.2).map fun p => f p.2) =
        (l.filter q).map f := by
  intro k l
  induction l generalizing k with
  | nil => rfl
  | cons a t ih =>
    by_cases h : q a = true <;>
      simp [List.enumFrom, List.filter_cons, h, ih]

theorem applyPagination_orders (q : QueryBuilder) (db : DB) (opts : QueryOptions) :
    (q.applyPagination db opts).orders = db.orders := rfl

theorem applyPagination_wheres (q : QueryBuilder) (db : DB) (opts : QueryOptions) :
    (q.applyPagination db opts).wheres = db.wheres := rfl

theorem applySorting_wheres (reg : Registry) (q : QueryBuilder) (db : DB)
    (opts : QueryOptions) :
    (QueryBuilder.applySorting reg q db opts).wheres = db.wheres := by
  unfold QueryBuilder.applySorting
  dsimp only
  repeat' split
  all_goals rfl

theorem applyFilters_orders (q : QueryBuilder) (db : DB) (opts : QueryOptions) :
    (q.applyFilters db opts).orders = db.orders := by
  unfold QueryBuilder.applyFilters
  split <;> rfl

theorem applySearch_orders (reg : Registry) (q : QueryBuilder) (db : DB)
    (opts : QueryOptions) :
    (QueryBuilder.applySearch reg q db opts).orders = db.orders := by
  unfold QueryBuilder.applySearch
  dsimp only
  repeat' split
  all_goals rfl

theorem foldl_Preload_orders (l : List String) (db : DB) :
    (l.foldl DB.Preload db).orders = db.orders := by
  induction l generalizing db with
  | nil => rfl
  | cons a t ih => simpa using ih (db.Preload a)

theorem foldl_Preload_wheres (l : List String) (db : DB) :
    (l.foldl DB.Preload db).wheres = db.wheres := by
  induction l generalizing db with
  | nil => rfl
  | cons a t ih => simpa using ih (db.Preload a)

theorem applyPreload_orders (q : QueryBuilder) (db : DB) (opts : QueryOptions) :
    (q.applyPreload db opts).orders = db.orders :=
  foldl_Preload_orders opts.preload db

theorem applyPreload_wheres (q : QueryBuilder) (db : DB) (opts : QueryOptions) :
    (q.applyPreload db opts).wheres = db.wheres :=
  foldl_Preload_wheres opts.preload db

theorem applyQuery_orders (reg : Registry) (q : QueryBuilder) (db : DB)
    (opts : QueryOptions) (archived : Bool) :
    (QueryBuilder.applyQuery reg q db opts archived).orders =
      (QueryBuilder.applySorting reg q (q.applyPagination db opts) opts).orders := by
  unfold QueryBuilder.applyQuery
  cases archived <;>
    simp [DB.Where, DB.Unscoped, applyPreload_orders, applySearch_orders, applyFilters_orders]

theorem mem_orders_applySorting (reg : Registry) (q : QueryBuilder) (db : DB)
    (opts : QueryOptions) (oc : List OrderClause)
    (h : oc ∈ (QueryBuilder.applySorting reg q db opts).orders) :
    oc ∈ db.orders ∨ oc = [OrderClause.mk "created_at" "desc"] ∨
      ∃ sb so, oc = mkOrderClauses reg q.entityType sb so := by
  unfold QueryBuilder.applySorting at h
  dsimp only at h
  split at h
  · split at h
    · split at h
      · split at h
        · simp only [DB.Order, List.mem_append, List.mem_singleton] at h
          rcases h with h | h
          · exact Or.inl h
          · subst h
            exact Or.inr (Or.inr ⟨_, _, rfl⟩)
        · exact Or.inl h
      · simp only [DB.Order, List.mem_append, List.mem_singleton] at h
        rcases h with h | h
        · exact Or.inl h
        · exact Or.inr (Or.inl h)
    · simp only [DB.Order, List.mem_append, List.mem_singleton] at h
      rcases h with h | h
      · exact Or.inl h
      · exact Or.inr (Or.inl h)
  · split at h
    · simp only [DB.Order, List.mem_append, List.mem_singleton] at h
      rcases h with h | h
      · exact Or.inl h
      · subst h
        exact Or.inr (Or.inr ⟨_, _, rfl⟩)
    · exact Or.inl h

theorem mem_mkOrderClauses_valid (reg : Registry) (et : String) (sb so : List String)
    (h : et ≠ "") (c : OrderClause) (hc : c ∈ mkOrderClauses reg et sb so) :
    IsValidSortColumn reg et c.col = true := by
  rw [mkOrderClauses_eq reg et sb so h] at hc
  rcases List.mem_map.mp hc with ⟨p, hp, rfl⟩
  exact (List.mem_filter.mp hp).2

theorem applyFilters_wheres (q : QueryBuilder) (db : DB) (opts : QueryOptions) :
    (q.applyFilters db opts).wheres =
      db.wheres ++ (if opts.filters.length > 0 then [WhereCond.filters opts.filters] else []) := by
  unfold QueryBuilder.applyFilters
  split <;> simp [DB.Where]

theorem mem_wheres_applyFilters (q : QueryBuilder) (db : DB) (opts : QueryOptions)
    (w : WhereCond) (h : w ∈ (q.applyFilters db opts).wheres) :
    w ∈ db.wheres ∨ w = WhereCond.filters opts.filters := by
  rw [applyFilters_wheres] at h
  rcases List.mem_append.mp h with h | h
  · exact Or.inl h
  · split at h <;> simp_all

theorem mem_wheres_applySearch (reg : Registry) (q : QueryBuilder) (db : DB)
    (opts : QueryOptions) (w : WhereCond)
    (h : w ∈ (QueryBuilder.applySearch reg q db opts).wheres) :
    w ∈ db.wheres ∨
      ∃ cand : List String, w = WhereCond.orILike
          (cand.filter fun col =>
            !((q.entityType != "") && !(IsValidSearchColumn reg q.entityType col)))
          ("%" ++ opts.search ++ "%") := by
  unfold QueryBuilder.applySearch at h
  dsimp only at h
  repeat' split at h
  all_goals
    first
      | exact Or.inl h
      | · simp only [DB.Where, List.mem_append, List.mem_singleton] at h
          rcases h with h | h
          · exact Or.inl h
          · subst h
            exact Or.inr ⟨_, rfl⟩

theorem mem_search_filter_valid (reg : Registry) (et : String) (cand : List String)
    (het : et ≠ "") (col : String)
    (hc : col ∈ cand.filter fun c => !((et != "") && !(IsValidSearchColumn reg et c))) :
    IsValidSearchColumn reg et col = true := by
  have hb : (et != "") = true := by simpa using het
  have := (List.mem_filter.mp hc).2
  simp only [hb, Bool.true_and, Bool.not_not] at this
  exact this

theorem mem_orders_applyQuery (reg : Registry) (q : QueryBuilder) (db : DB)
    (opts : QueryOptions) (archived : Bool) (oc : List OrderClause)
    (h : oc ∈ (QueryBuilder.applyQuery reg q db opts archived).orders) :
    oc ∈ db.orders ∨ oc = [OrderClause.mk "created_at" "desc"] ∨
      ∃ sb so, oc = mkOrderClauses reg q.entityType sb so := by
  rw [applyQuery_orders] at h
  rcases mem_orders_applySorting reg q _ opts oc h with h | h
  · rw [applyPagination_orders] at h
    exact Or.inl h
  · exact Or.inr h

theorem mem_wheres_applyQuery (reg : Registry) (q : QueryBuilder) (db : DB)
    (opts : QueryOptions) (archived : Bool) (w : WhereCond)
    (h : w ∈ (QueryBuilder.applyQuery reg q db opts archived).wheres) :
    w ∈ db.wheres ∨ w = WhereCond.filters opts.filters ∨
      (∃ cand : List String, w = WhereCond.orILike
          (cand.filter fun col =>
            !((q.entityType != "") && !(IsValidSearchColumn reg q.entityType col)))
          ("%" ++ opts.search ++ "%")) ∨
      w = WhereCond.raw "deleted_at IS NOT NULL" ∨
      w = WhereCond.raw "deleted_at IS NULL" := by
  have hstep : ∀ v : WhereCond,
      v ∈ (QueryBuilder.applySearch reg q
            (q.applyFilters
              (QueryBuilder.applySorting reg q (q.applyPagination db opts) opts) opts)
            opts).wheres →
      v ∈ db.wheres ∨ v = WhereCond.filters opts.filters ∨
        ∃ cand : List String, v = WhereCond.orILike
          (cand.filter fun col =>
            !((q.entityType != "") && !(IsValidSearchColumn reg q.entityType col)))
          ("%" ++ opts.search ++ "%") := by
    intro v hv
    rcases mem_wheres_applySearch reg q _ opts v hv with hv | hv
    · rcases mem_wheres_applyFilters q _ opts v hv with hv | hv
      · rw [applySorting_wheres, applyPagination_wheres] at hv
        exact Or.inl hv
      · exact Or.inr (Or.inl hv)
    · exact Or.inr (Or.inr hv)
  unfold QueryBuilder.applyQuery at h
  dsimp only at h
  cases archived with
  | true =>
    simp [DB.Where, DB.Unscoped, applyPreload_wheres, List.mem_append] at h
    rcases h with h | h
    · rcases hstep w h with h | h | h
      · exact Or.inl h
      · exact Or.inr (Or.inl h)
      · exact Or.inr (Or.inr (Or.inl h))
    · exact Or.inr (Or.inr (Or.inr (Or.inl h)))
  | false =>
    simp [DB.Where, applyPreload_wheres, List.mem_append] at h
    rcases h with h | h
    · rcases hstep w h with h | h | h
      · exact Or.inl h
      · exact Or.inr (Or.inl h)
      · exact Or.inr (Or.inr (Or.inl h))
    · exact Or.inr (Or.inr (Or.inr (Or.inr h)))

theorem sortOrder_applyPageParam (c : QueryValues) (o : QueryOptions) :
    (applyPageParam c o).sortOrder = o.sortOrder := by
  unfold applyPageParam
  dsimp only
  repeat' split
  all_goals rfl

theorem sortOrder_applyPageSizeParam (c : QueryValues) (o : QueryOptions) :
    (applyPageSizeParam c o).sortOrder = o.sortOrder := by
  unfold applyPageSizeParam
  dsimp only
  repeat' split
  all_goals rfl

theorem sortOrder_applySortByParam (c : QueryValues) (o : QueryOptions) :
    (applySortByParam c o).sortOrder = o.sortOrder := by
  unfold applySortByParam
  dsimp only
  repeat' split
  all_goals rfl

theorem sortOrder_applySearchParam (c : QueryValues) (o : QueryOptions) :
    (applySearchParam c o).sortOrder = o.sortOrder := by
  unfold applySearchParam
  dsimp only
  repeat' split
  all_goals rfl

theorem sortOrder_applySearchColumnsParam (c : QueryValues) (o : QueryOptions) :
    (applySearchColumnsParam c o).sortOrder = o.sortOrder := by
  unfold applySearchColumnsParam
  dsimp only
  repeat' split
  all_goals rfl

theorem sortOrder_applyPreloadParam (c : QueryValues) (o : QueryOptions) :
    (applyPreloadParam c o).sortOrder = o.sortOrder := by
  unfold applyPreloadParam
  dsimp only
  repeat' split
  all_goals rfl

theorem sortOrder_applyIncludeArchivedParam (c : QueryValues) (o : QueryOptions) :
    (applyIncludeArchivedParam c o).sortOrder = o.sortOrder := by
  unfold applyIncludeArchivedParam
  dsimp only
  repeat' split
  all_goals rfl

theorem sortOrder_parseFilters (c : QueryValues) (o : QueryOptions) :
    (parseFilters c o).sortOrder = o.sortOrder := by
  unfold parseFilters
  dsimp only
  repeat' split
  all_goals rfl

theorem sortBy_applySortOrderParam (c : QueryValues) (o : QueryOptions) :
    (applySortOrderParam c o).sortBy = o.sortBy := by
  unfold applySortOrderParam
  dsimp only
  repeat' split
  all_goals rfl

theorem sortBy_applySearchParam (c : QueryValues) (o : QueryOptions) :
    (applySearchParam c o).sortBy = o.sortBy := by
  unfold applySearchParam
  dsimp only
  repeat' split
  all_goals rfl

theorem sortBy_applySearchColumnsParam (c : QueryValues) (o : QueryOptions) :
    (applySearchColumnsParam c o).sortBy = o.sortBy := by
  unfold applySearchColumnsParam
  dsimp only
  repeat' split
  all_goals rfl

theorem sortBy_applyPreloadParam (c : QueryValues) (o : QueryOptions) :
    (applyPreloadParam c o).sortBy = o.sortBy := by
  unfold applyPreloadParam
  dsimp only
  repeat' split
  all_goals rfl

theorem sortBy_applyIncludeArchivedParam (c : QueryValues) (o : QueryOptions) :
    (applyIncludeArchivedParam c o).sortBy = o.sortBy := by
  unfold applyIncludeArchivedParam
  dsimp only
  repeat' split
  all_goals rfl

theorem sortBy_parseFilters (c : QueryValues) (o : QueryOptions) :
    (parseFilters c o).sortBy = o.sortBy := by
  unfold parseFilters
  dsimp only
  repeat' split
  all_goals rfl

theorem applySortOrderParam_of_absent (c : QueryValues) (o : QueryOptions)
    (h : ctxQuery c "sortOrder" = "") : applySortOrderParam c o = o := by
  simp [applySortOrderParam, h]

theorem applySortByParam_sortBy_of_present (c : QueryValues) (o : QueryOptions)
    (h : ctxQuery c "sortBy" ≠ "") :
    (applySortByParam c o).sortBy = splitOnChar ',' (ctxQuery c "sortBy") := by
  simp [applySortByParam, h]

theorem mkOrderClauses_defaultSort (reg : Registry) (et : String) (ds : List String)
    (h : et ≠ "") :
    mkOrderClauses reg et ds (List.replicate ds.length "asc") =
      (ds.filter fun c => IsValidSortColumn reg et c).map fun c => OrderClause.mk c "asc" := by
  rw [mkOrderClauses_eq reg et _ _ h]
  simp only [orderFor_replicate_asc]
  have := enumFrom_filter_map_snd (fun c => IsValidSortColumn reg et c)
    (fun c => OrderClause.mk c "asc") 0 ds
  simpa [List.enum] using this

theorem mkOrderClauses_spec (reg : Registry) (et : String) (sb so : List String)
    (h : et ≠ "") :
    mkOrderClauses reg et sb so =
      (sb.enum.filter fun p => IsValidSortColumn reg et p.2).map
        fun p => OrderClause.mk p.2
          (if lowerString ((so[p.1]?).getD "") = "desc" then "desc" else "asc") := by
  rw [mkOrderClauses_eq reg et sb so h]
  simp only [orderFor_eq_getD]

theorem totalPages_eq_ceil (total pageSize : Int) (h1 : 0 ≤ total) (h2 : 1 ≤ pageSize) :
    (if 0 < Int.tmod total pageSize then Int.tdiv total pageSize + 1
     else Int.tdiv total pageSize) = ⌈(total : ℚ) / (pageSize : ℚ)⌉ := by
  lift total to ℕ using h1 with t
  have h2' : (0 : ℤ) ≤ pageSize := by omega
  lift pageSize to ℕ using h2' with p
  have hp : 0 < p := by exact_mod_cast h2
  have hd : Int.tdiv (t : ℤ) (p : ℤ) = ((t / p : ℕ) : ℤ) := rfl
  have hm : Int.tmod (t : ℤ) (p : ℤ) = ((t % p : ℕ) : ℤ) := rfl
  rw [hd, hm]
  have hp' : (0 : ℚ) < (p : ℚ) := by exact_mod_cast hp
  have hdm : p * (t / p) + t % p = t := Nat.div_add_mod t p
  have hmod : t % p < p := Nat.mod_lt t hp
  have hdmq : (p : ℚ) * ((t / p : ℕ) : ℚ) + ((t % p : ℕ) : ℚ) = (t : ℚ) := by
    exact_mod_cast congrArg (fun n : ℕ => (n : ℚ)) hdm
  have hmodq : ((t % p : ℕ) : ℚ) < (p : ℚ) := by exact_mod_cast hmod
  by_cases hz : t % p = 0
  · have hcond : ¬ (0 : ℤ) < ((t % p : ℕ) : ℤ) := by
      rw [hz]
      simp
    rw [if_neg hcond]
    symm
    rw [Int.ceil_eq_iff]
    have hzq : ((t % p : ℕ) : ℚ) = 0 := by
      rw [hz]
      simp
    simp only [Int.cast_natCast, Int.cast_add, Int.cast_one]
    constructor
    · rw [lt_div_iff₀ hp']
      nlinarith [hdmq, hzq, hp']
    · rw [div_le_iff₀ hp']
      nlinarith [hdmq, hzq]
  · have hpos : 0 < t % p := Nat.pos_of_ne_zero hz
    have hcond : (0 : ℤ) < ((t % p : ℕ) : ℤ) := by exact_mod_cast hpos
    rw [if_pos hcond]
    symm
    rw [Int.ceil_eq_iff]
    have hposq : (0 : ℚ) < ((t % p : ℕ) : ℚ) := by exact_mod_cast hpos
    simp only [Int.cast_natCast, Int.cast_add, Int.cast_one]
    constructor
    · rw [lt_div_iff₀ hp']
      nlinarith [hdmq, hposq]
    · rw [div_le_iff₀ hp']
      nlinarith [hdmq, hmodq]

/-! Claim theorems. -/

/-- Claim C1, counterexample: with an empty registry and entity type
"user", Build on empty SortBy emits the hard-coded order clause
"created_at desc", and "created_at" is not in the (empty) sortable
whitelist of "user" — so a column name reaches the order-by clause
without being whitelisted, contradicting the claim as stated. -/
theorem build_fallback_column_not_whitelisted :
    (QueryBuilder.Build [] (NewQueryBuilder [] "user") DB.empty optsBlank).orders =
        [[OrderClause.mk "created_at" "desc"]] ∧
      IsValidSortColumn [] "user" "created_at" = false := by
  constructor
  · decide
  · decide

/-- Claim C1 (corrected): for every registry, every NON-EMPTY entity type,
every QueryOptions and both archived flags, each order-by clause produced
by Build/BuildArchived either is the hard-coded "created_at desc" fallback
or references only columns in the entity's sortable whitelist, and every
ILIKE search group references only columns in the searchable whitelist. -/
theorem build_columns_whitelisted (reg : Registry) (et : String) (opts : QueryOptions)
    (archived : Bool) (het : et ≠ "") :
    (∀ oc ∈ (if archived then
          QueryBuilder.BuildArchived reg (NewQueryBuilder reg et) DB.empty opts
        else QueryBuilder.Build reg (NewQueryBuilder reg et) DB.empty opts).orders,
        oc = [OrderClause.mk "created_at" "desc"] ∨
          ∀ c ∈ oc, IsValidSortColumn reg et c.col = true) ∧
      (∀ w ∈ (if archived then
            QueryBuilder.BuildArchived reg (NewQueryBuilder reg et) DB.empty opts
          else QueryBuilder.Build reg (NewQueryBuilder reg et) DB.empty opts).wheres,
        ∀ cols term, w = WhereCond.orILike cols term →
          ∀ col ∈ cols, IsValidSearchColumn reg et col = true) := by
  have horders : ∀ (b : Bool) (oc : List OrderClause),
      oc ∈ (QueryBuilder.applyQuery reg (NewQueryBuilder reg et) DB.empty opts b).orders →
      oc = [OrderClause.mk "created_at" "desc"] ∨
        ∀ c ∈ oc, IsValidSortColumn reg et c.col = true := by
    intro b oc h
    rcases mem_orders_applyQuery reg _ DB.empty opts b oc h with h | h | ⟨sb, so, rfl⟩
    · simp [DB.empty] at h
    · exact Or.inl h
    · exact Or.inr fun c hc => mem_mkOrderClauses_valid reg et sb so het c hc
  have hwheres : ∀ (b : Bool) (w : WhereCond),
      w ∈ (QueryBuilder.applyQuery reg (NewQueryBuilder reg et) DB.empty opts b).wheres →
      ∀ cols term, w = WhereCond.orILike cols term →
        ∀ col ∈ cols, IsValidSearchColumn reg et col = true := by
    intro b w h cols term hw col hcol
    rcases mem_wheres_applyQuery reg _ DB.empty opts b w h with h | h | ⟨cand, rfl⟩ | h | h
    · simp [DB.empty] at h
    · subst h
      exact WhereCond.noConfusion hw
    · injection hw with h1 h2
      subst h1
      exact mem_search_filter_valid reg et cand het col hcol
    · subst h
      exact WhereCond.noConfusion hw
    · subst h
      exact WhereCond.noConfusion hw
  cases archived
  · exact ⟨fun oc h => horders false oc h, fun w h => hwheres false w h⟩
  · exact ⟨fun oc h => horders true oc h, fun w h => hwheres true w h⟩

/-- Witness for the corrected C1 at the concrete "user" registry, a mixed
request (valid and invalid sort and search columns) and the active build. -/
theorem build_columns_whitelisted_witness :
    ("user" : String) ≠ "" ∧
      ((∀ oc ∈ (if false then
            QueryBuilder.BuildArchived regUser (NewQueryBuilder regUser "user") DB.empty
              optsMixed
          else QueryBuilder.Build regUser (NewQueryBuilder regUser "user") DB.empty
              optsMixed).orders,
          oc = [OrderClause.mk "created_at" "desc"] ∨
            ∀ c ∈ oc, IsValidSortColumn regUser "user" c.col = true) ∧
        (∀ w ∈ (if false then
              QueryBuilder.BuildArchived regUser (NewQueryBuilder regUser "user") DB.empty
                optsMixed
            else QueryBuilder.Build regUser (NewQueryBuilder regUser "user") DB.empty
                optsMixed).wheres,
          ∀ cols term, w = WhereCond.orILike cols term →
            ∀ col ∈ cols, IsValidSearchColumn regUser "user" col = true)) :=
  ⟨by decide,
   build_columns_whitelisted regUser "user"
     optsMixed false (by decide)⟩

/-- Claim C2 (code bug): the query that Count builds and hands to the
external row counter carries the pagination offset and limit — at page 2
with page size 20 it has offset 20 and limit 20, although the claim (and
the intent that Count return the total matching rows) requires no offset
and no limit on the count query. -/
theorem countQuery_keeps_offset_and_limit :
    (QueryBuilder.CountQuery [] (NewQueryBuilder [] "user") DB.empty
        optsPage2 false).offset = some 20 ∧
      (QueryBuilder.CountQuery [] (NewQueryBuilder [] "user") DB.empty
        optsPage2 false).limit = some 20 := by
  constructor
  · decide
  · decide

/-- Claim C3, counterexample: at pageSize = 0 both response builders hit
the integer division by zero (a Go runtime panic, modelled as none), so
they are not total on every (total, page, pageSize) triple. -/
theorem responses_panic_at_zero_pageSize :
    PaginatedResponse ([] : List Unit) 0 1 0 = none ∧
      RespondWithPagination 200 0 1 0 = none :=
  ⟨rfl, rfl⟩

/-- Claim C3 (corrected): PaginatedResponse and RespondWithPagination
produce a response for every (total, page, pageSize) triple with
pageSize ≠ 0; only the zero divisor panics. -/
theorem responses_total_off_zero_pageSize {α : Type} (data : List α)
    (status total page pageSize : Int) (h : pageSize ≠ 0) :
    (PaginatedResponse data total page pageSize).isSome = true ∧
      (RespondWithPagination status total page pageSize).isSome = true := by
  unfold PaginatedResponse RespondWithPagination goDiv goMod
  simp [h]

/-- Witness for the corrected C3 at a concrete nonzero page size. -/
theorem responses_total_off_zero_pageSize_witness :
    (20 : Int) ≠ 0 ∧
      (PaginatedResponse ([] : List Unit) 105 1 20).isSome = true ∧
      (RespondWithPagination 200 105 1 20).isSome = true :=
  ⟨by decide,
   (responses_total_off_zero_pageSize ([] : List Unit) 200 105 1 20 (by decide)).1,
   (responses_total_off_zero_pageSize ([] : List Unit) 200 105 1 20 (by decide)).2⟩

/-- Claim C4, counterexample: entity "e" HAS a registered configuration,
with DefaultSort = ["name"], yet applySorting on empty SortBy emits no
order clause at all — DefaultSort columns are still filtered through the
sortable whitelist, which here does not contain "name", so the builder
does not order by every column of DefaultSort. -/
theorem applySorting_drops_unwhitelisted_defaultSort :
    GetConfig regNameDefault "e" = some cfgNameDefault ∧
      cfgNameDefault.defaultSort = ["name"] ∧
      (QueryBuilder.applySorting regNameDefault (NewQueryBuilder regNameDefault "e")
          DB.empty optsBlank).orders = [] := by
  refine ⟨by decide, by decide, by decide⟩

/-- Claim C4 (corrected): with empty SortBy and a non-empty entity type,
a registered configuration with non-empty DefaultSort yields an ascending
order on exactly the whitelisted DefaultSort columns (and no ordering at
all when none survive the whitelist); the hard-coded created_at desc
fallback is used precisely when the entity has no configuration or its
DefaultSort is empty. -/
theorem applySorting_empty_sortBy_spec (reg : Registry) (et : String) (db : DB)
    (opts : QueryOptions) (h : opts.sortBy = []) (het : et ≠ "") :
    (QueryBuilder.applySorting reg (NewQueryBuilder reg et) db opts).orders =
      db.orders ++ sortSpecDefault reg et := by
  unfold QueryBuilder.applySorting sortSpecDefault NewQueryBuilder
  dsimp only
  rw [h]
  simp only [List.isEmpty_nil, if_true]
  cases hc : GetConfig reg et with
  | none => simp [DB.Order]
  | some cfg =>
    dsimp only
    by_cases hdef : cfg.defaultSort = []
    · have hlen : ¬ cfg.defaultSort.length > 0 := by simp [hdef]
      rw [if_neg hlen, if_pos hdef]
      simp [DB.Order]
    · have hlen : cfg.defaultSort.length > 0 := List.length_pos.mpr hdef
      rw [if_pos hlen, if_neg hdef]
      rw [mkOrderClauses_defaultSort reg et cfg.defaultSort het]
      by_cases hkept : (cfg.defaultSort.filter fun c => IsValidSortColumn reg et c) = []
      · rw [hkept]
        simp
      · rw [if_neg hkept]
        have hmaplen : ((cfg.defaultSort.filter fun c => IsValidSortColumn reg et c).map
            fun c => OrderClause.mk c "asc").length > 0 := by
          simpa [List.length_pos] using hkept
        rw [if_pos hmaplen]
        simp [DB.Order]

/-- Witness for the corrected C4: the "user" configuration defaults to
created_at, which is whitelisted, so empty SortBy yields created_at
ascending. -/
theorem applySorting_empty_sortBy_spec_witness :
    (QueryBuilder.applySorting regUser (NewQueryBuilder regUser "user")
        DB.empty optsBlank).orders = [[OrderClause.mk "created_at" "asc"]] := by
  rw [applySorting_empty_sortBy_spec regUser "user" DB.empty optsBlank rfl (by decide)]
  decide

/-- Claim C5 (confirmed): pagination normalizes page below one to one and
keeps it otherwise, normalizes pageSize below one to twenty and above one
hundred to one hundred keeping it otherwise (so the normalized size is
always between one and one hundred), and applies offset
(page - 1) * pageSize with limit pageSize; Paginate performs the same
normalization. -/
theorem applyPagination_normalizes (q : QueryBuilder) (db : DB) (opts : QueryOptions) :
    (q.applyPagination db opts).offset =
        some (((if opts.page < 1 then 1 else opts.page) - 1) *
          (if opts.pageSize < 1 then 20
           else if opts.pageSize > 100 then 100 else opts.pageSize)) ∧
      (q.applyPagination db opts).limit =
        some (if opts.pageSize < 1 then 20
          else if opts.pageSize > 100 then 100 else opts.pageSize) ∧
      (1 : Int) ≤ (if opts.pageSize < 1 then 20
          else if opts.pageSize > 100 then 100 else opts.pageSize) ∧
      (if opts.pageSize < 1 then 20
          else if opts.pageSize > 100 then 100 else opts.pageSize) ≤ 100 ∧
      Paginate opts.page opts.pageSize =
        (if opts.page < 1 then 1 else opts.page,
         if opts.pageSize < 1 then 20
         else if opts.pageSize > 100 then 100 else opts.pageSize) := by
  unfold QueryBuilder.applyPagination Paginate DB.Offset DB.Limit DefaultPage DefaultPageSize
    MaxPageSize
  dsimp only
  refine ⟨?_, ?_, ?_, ?_, ?_⟩ <;> split_ifs <;> simp_all

/-- Claim C6, counterexample: with the EMPTY entity type name the sorting
loop skips whitelist validation entirely, so a column rejected by
IsValidSortColumn (here "x", rejected because no configuration exists)
still reaches the order clause, instead of being skipped as the claim
requires for every entity type. -/
theorem applySorting_empty_entity_bypasses_whitelist :
    IsValidSortColumn [] "" "x" = false ∧
      (QueryBuilder.applySorting [] (NewQueryBuilder [] "") DB.empty optsSortX).orders =
        [[OrderClause.mk "x" "asc"]] := by
  refine ⟨by decide, by decide⟩

/-- Claim C6 (corrected): for every NON-EMPTY entity type and non-empty
SortBy, the applied order clause keeps exactly the columns accepted by
IsValidSortColumn, pairs each kept column with the SortOrder entry at its
original position (case-insensitive "desc" gives descending, any other or
missing entry ascending), and applies no explicit ordering when no column
survives. -/
theorem applySorting_nonempty_sortBy_spec (reg : Registry) (et : String) (db : DB)
    (opts : QueryOptions) (het : et ≠ "") (hsb : opts.sortBy ≠ []) :
    (QueryBuilder.applySorting reg (NewQueryBuilder reg et) db opts).orders =
      db.orders ++
        (if sortSpecRequested reg et opts.sortBy opts.sortOrder = [] then []
         else [sortSpecRequested reg et opts.sortBy opts.sortOrder]) := by
  unfold QueryBuilder.applySorting sortSpecRequested NewQueryBuilder
  dsimp only
  have hne : opts.sortBy.isEmpty = false := by
    cases hsb' : opts.sortBy with
    | nil => exact absurd hsb' hsb
    | cons a t => rfl
  simp only [hne, Bool.false_eq_true, if_false]
  rw [mkOrderClauses_spec reg et opts.sortBy opts.sortOrder het]
  by_cases hk : ((opts.sortBy.enum.filter fun p => IsValidSortColumn reg et p.2).map
      fun p => OrderClause.mk p.2
        (if lowerString ((opts.sortOrder[p.1]?).getD "") = "desc" then "desc"
         else "asc")) = []
  · rw [hk]
    simp
  · rw [if_neg hk]
    have hlen : ((opts.sortBy.enum.filter fun p => IsValidSortColumn reg et p.2).map
        fun p => OrderClause.mk p.2
          (if lowerString ((opts.sortOrder[p.1]?).getD "") = "desc" then "desc"
           else "asc")).length > 0 := by
      simpa [List.length_pos] using hk
    rw [if_pos hlen]
    simp [DB.Order]

/-- Witness for the corrected C6 on the specification worked example:
sortBy name,unknownCol with sortOrder desc against the "user" whitelist
yields an order clause referencing only "name" descending. -/
theorem applySorting_nonempty_sortBy_spec_witness :
    (QueryBuilder.applySorting regUser (NewQueryBuilder regUser "user")
        DB.empty optsSortNameUnknown).orders = [[OrderClause.mk "name" "desc"]] := by
  rw [applySorting_nonempty_sortBy_spec regUser "user" DB.empty optsSortNameUnknown
    (by decide) (by decide)]
  decide

/-- Claim C7, counterexample: with the EMPTY entity type name the search
loop skips whitelist validation entirely, so a column rejected by
IsValidSearchColumn (here "x", rejected because no configuration exists)
still produces an ILIKE condition, instead of the search term being
silently ignored as the claim requires for every entity type. -/
theorem applySearch_empty_entity_bypasses_whitelist :
    IsValidSearchColumn [] "" "x" = false ∧
      (QueryBuilder.applySearch [] (NewQueryBuilder [] "") DB.empty optsSearchX).wheres =
        [WhereCond.orILike ["x"] "%john%"] := by
  refine ⟨by decide, by decide⟩

/-- Claim C7 (corrected): for every NON-EMPTY entity type, applySearch
behaves exactly as the specification describes — candidate columns are
SearchColumns if provided, else the configured SearchableColumns; columns
failing IsValidSearchColumn are dropped; survivors form a single OR-group
of wildcard-wrapped case-insensitive conditions conjoined to the query;
and with no survivors the query is returned unchanged. -/
theorem applySearch_matches_spec (reg : Registry) (et : String) (db : DB)
    (opts : QueryOptions) (het : et ≠ "") :
    QueryBuilder.applySearch reg (NewQueryBuilder reg et) db opts =
      searchSpec reg et db opts := by
  unfold QueryBuilder.applySearch searchSpec NewQueryBuilder
  dsimp only
  by_cases hs : opts.search = ""
  · rw [if_pos hs, if_pos hs]
  · rw [if_neg hs, if_neg hs]
    have hb : (et != "") = true := by simpa using het
    have hpred : (fun col => !((et != "") && !(IsValidSearchColumn reg et col)))
        = fun col => IsValidSearchColumn reg et col := by
      funext col
      rw [hb]
      cases IsValidSearchColumn reg et col <;> rfl
    rw [hpred]
    rcases hsc : opts.searchColumns with _ | ⟨s, ss⟩
    · simp only [List.isEmpty_nil, if_true]
      cases hc : GetConfig reg et with
      | none => simp
      | some cfg =>
        dsimp only
        by_cases hempty : cfg.searchableColumns = []
        · simp [hempty]
        · have hne : cfg.searchableColumns.isEmpty = false := by
            cases hcs : cfg.searchableColumns with
            | nil => exact absurd hcs hempty
            | cons a t => rfl
          simp only [hne, Bool.false_eq_true, if_false]
          by_cases hk : (cfg.searchableColumns.filter fun c =>
              IsValidSearchColumn reg et c) = []
          · rw [if_pos hk, hk]
            simp
          · rw [if_neg hk]
            have hlen : (cfg.searchableColumns.filter fun c =>
                IsValidSearchColumn reg et c).length > 0 := by
              simpa [List.length_pos] using hk
            rw [if_pos hlen]
    · simp only [List.isEmpty_cons, Bool.false_eq_true, if_false]
      rw [if_neg (List.cons_ne_nil s ss)]
      by_cases hk : ((s :: ss).filter fun c => IsValidSearchColumn reg et c) = []
      · rw [if_pos hk, hk]
        simp
      · rw [if_neg hk]
        have hlen : ((s :: ss).filter fun c => IsValidSearchColumn reg et c).length > 0 := by
          simpa [List.length_pos] using hk
        rw [if_pos hlen]

/-- Witness for the corrected C7 on the specification worked example:
search john over email,phone against the "user" whitelist (email only)
yields one OR-group ILIKE condition on email alone. -/
theorem applySearch_matches_spec_witness :
    QueryBuilder.applySearch regUser (NewQueryBuilder regUser "user")
        DB.empty optsSearchJohn =
      DB.Where DB.empty (WhereCond.orILike ["email"] "%john%") := by
  rw [applySearch_matches_spec regUser "user" DB.empty optsSearchJohn (by decide)]
  decide

/-- Claim C8 (confirmed): for every total at least zero and pageSize at
least one, PaginatedResponse succeeds and its total_pages field is the
ceiling of total divided by pageSize. -/
theorem paginatedResponse_totalPages_ceil {α : Type} (data : List α)
    (total page pageSize : Int) (h1 : 0 ≤ total) (h2 : 1 ≤ pageSize) :
    ∃ r : PagResponse α, PaginatedResponse data total page pageSize = some r ∧
      r.totalPages = ⌈(total : ℚ) / (pageSize : ℚ)⌉ := by
  have hz : pageSize ≠ 0 := by omega
  unfold PaginatedResponse goDiv goMod
  simp only [if_neg hz]
  refine ⟨_, rfl, ?_⟩
  dsimp only
  have := totalPages_eq_ceil total pageSize h1 h2
  simpa using this

/-- Witness for C8 at the concrete values of the specification: total 105
with page size 20 gives total_pages 6, the ceiling of 105/20. -/
theorem paginatedResponse_totalPages_ceil_witness :
    (∃ r : PagResponse Unit, PaginatedResponse ([] : List Unit) 105 1 20 = some r ∧
        r.totalPages = ⌈((105 : Int) : ℚ) / ((20 : Int) : ℚ)⌉) ∧
      (PaginatedResponse ([] : List Unit) 105 1 20).map (fun r => r.totalPages) = some 6 :=
  ⟨paginatedResponse_totalPages_ceil ([] : List Unit) 105 1 20 (by decide) (by decide), rfl⟩

/-- Claim C9 (confirmed): a request carrying sortBy but no sortOrder
parameter parses to a QueryOptions whose SortOrder is ["desc"], inherited
from DefaultQueryOptions, while SortBy is the comma-split of the sortBy
value — so the first requested sort column is paired with "desc". -/
theorem parseFromRequest_sortOrder_defaults_desc (c : QueryValues)
    (h1 : ctxQuery c "sortBy" ≠ "") (h2 : ctxQuery c "sortOrder" = "") :
    (ParseFromRequest c).sortOrder = ["desc"] ∧
      (ParseFromRequest c).sortBy = splitOnChar ',' (ctxQuery c "sortBy") := by
  unfold ParseFromRequest
  constructor
  · rw [sortOrder_parseFilters, sortOrder_applyIncludeArchivedParam,
      sortOrder_applyPreloadParam, sortOrder_applySearchColumnsParam,
      sortOrder_applySearchParam, applySortOrderParam_of_absent _ _ h2,
      sortOrder_applySortByParam, sortOrder_applyPageSizeParam, sortOrder_applyPageParam]
    rfl
  · rw [sortBy_parseFilters, sortBy_applyIncludeArchivedParam, sortBy_applyPreloadParam,
      sortBy_applySearchColumnsParam, sortBy_applySearchParam, sortBy_applySortOrderParam,
      applySortByParam_sortBy_of_present _ _ h1]

/-- Witness for C9 on the concrete request sortBy=name with no sortOrder. -/
theorem parseFromRequest_sortOrder_defaults_desc_witness :
    (ParseFromRequest [("sortBy", ["name"])]).sortOrder = ["desc"] ∧
      (ParseFromRequest [("sortBy", ["name"])]).sortBy = ["name"] := by
  have h := parseFromRequest_sortOrder_defaults_desc [("sortBy", ["name"])]
    (by decide) (by decide)
  exact ⟨h.1, by rw [h.2]; decide⟩

/-- Claim C10 (confirmed): ParseEntityType splits the constant one-rune
string "t" (not its argument) on "." and lowercases the last piece, so it
returns "t" for every input of every type and never derives anything from
the argument. -/
theorem parseEntityType_constant {α : Type u} (entity : α) :
    ParseEntityType entity = "t" := rfl
